import Mathlib

/-!
Verification development for `mover/tool.py`, a command line utility that
wires a Codex installation up to a local OLAMA runtime.  The Python code is
shallowly embedded: pure string algorithms become Lean functions on
`String` / `List Char`, the filesystem becomes an association list from
paths to file contents, and Python exceptions become `Except` / `Option`
error values.
-/

namespace Mover

deriving instance DecidableEq for Except

/-! ### Python string primitives

`listStarts needle hay` is Python `hay.startswith(needle)`,
`listHasSub needle hay` is Python `needle in hay`, both on character lists.
-/

def listStarts : List Char → List Char → Bool
  | [], _ => true
  | _ :: _, [] => false
  | a :: as, b :: bs => a == b && listStarts as bs

def listHasSub (needle : List Char) : List Char → Bool
  | [] => needle.isEmpty
  | c :: t => listStarts needle (c :: t) || listHasSub needle t

/-- Python `needle in hay` on strings. -/
def strHasSub (hay needle : String) : Bool :=
  listHasSub needle.data hay.data

/-- ASCII whitespace recognised by Python `str.strip()` (the entrypoint
files handled by the tool are ASCII; exotic Unicode spaces are not
modelled). -/
def isPySpace (c : Char) : Bool :=
  c == ' ' || c == '\t' || c == '\n' || c == '\r' || c == '\x0b' || c == '\x0c'

/-- Python `str.strip()`: drop leading and trailing whitespace. -/
def pyStrip (l : List Char) : List Char :=
  ((l.dropWhile isPySpace).reverse.dropWhile isPySpace).reverse

/-- Python `str.splitlines()` restricted to the `\n`, `\r\n` and `\r`
line breaks (the only ones arising in the files the tool manipulates).
Notably a trailing line break does not produce a trailing empty line:
`"a\n".splitlines() == ["a"]`, `"".splitlines() == []`,
`"\n".splitlines() == [""]`. -/
def pySplitlines : List Char → List (List Char)
  | [] => []
  | '\r' :: '\n' :: rest => [] :: pySplitlines rest
  | '\n' :: rest => [] :: pySplitlines rest
  | '\r' :: rest => [] :: pySplitlines rest
  | c :: rest =>
    match pySplitlines rest with
    | [] => [[c]]
    | l :: ls => (c :: l) :: ls

/-- Python `"\n".join(lines)`. -/
def pyJoinNL : List String → String
  | [] => ""
  | [x] => x
  | x :: y :: rest => x ++ "\n" ++ pyJoinNL (y :: rest)

/-! ### Constants from `mover/tool.py` -/

/-- `DEFAULT_INSTALL_LOCATIONS` (tool.py:19-26).  `Path.expanduser` /
`Path.resolve` are not modelled: paths are opaque strings and the
filesystem predicates are applied to them verbatim. -/
def DEFAULT_INSTALL_LOCATIONS : List String :=
  ["~/.codex",
   "~/Library/Application Support/Codex",
   "~/Applications/Codex.app/Contents/Resources/app",
   "~/codex",
   "/usr/local/lib/codex",
   "/opt/codex"]

/-- The idempotency-guard substring tested by `inject_bootstrap`
(tool.py:283): the bootstrap function's *name*, not the marker comments. -/
def bootstrapMarker : String := "ensure_local_model_server"

/-- The text of the injected block before the `{package_name}` hole, after
`textwrap.dedent(...)` and `.strip("\n")` (tool.py:286-296). -/
def injectionPre : String :=
  "# >>> CODEx local model integration (auto-generated)\ntry:\n    from .local_model_server import ensure_local_model_server  # type: ignore\nexcept Exception:  # pragma: no cover - fallback for script entrypoints\n    from "

/-- The text of the injected block after the `{package_name}` hole. -/
def injectionPost : String :=
  ".local_model_server import ensure_local_model_server  # type: ignore\nensure_local_model_server()\n# <<< CODEx local model integration (auto-generated)"

/-- The full injected block for a given package name. -/
def injectionBlock (packageName : String) : String :=
  injectionPre ++ packageName ++ injectionPost

/-- The integrator's configuration (the `CodexLocalModelIntegrator`
dataclass fields except `codex_root`, which is passed separately to
`locate_codex`). -/
structure Config where
  model : String := "llama3"
  host : String := "127.0.0.1"
  port : Nat := 3925
  dry_run : Bool := false
  backup_suffix : String := ".bak"
deriving Repr, DecidableEq

/-! ### Insertion-point computation (tool.py:298-310)

The Python loop

```
insert_at = 0
for index, line in enumerate(lines):
    stripped = line.strip()
    if not stripped or stripped.startswith(("#", double-quote, quote)):
        continue
    if stripped.startswith("import ") or stripped.startswith("from "):
        insert_at = index + 1
        continue
    insert_at = index
    break
else:
    insert_at = len(lines)
```

is mirrored by `insertLoop`: `idx` is the current index and `insertAcc`
carries the `insert_at` value produced by the import branch between
iterations (it is overwritten on both exits of the loop, exactly as in the
source). -/

/-- `not stripped or stripped.startswith(("#", double-quote, quote))`. -/
def lineIsSkippable (line : String) : Bool :=
  match pyStrip line.data with
  | [] => true
  | c :: _ => c == '#' || c == '"' || c == '\''

/-- `stripped.startswith("import ") or stripped.startswith("from ")`. -/
def lineIsImportLike (line : String) : Bool :=
  let s := pyStrip line.data
  listStarts "import ".data s || listStarts "from ".data s

def insertLoop : List String → Nat → Nat → Nat
  | [], idx, _insertAcc => idx
  | line :: rest, idx, insertAcc =>
    if lineIsSkippable line then insertLoop rest (idx + 1) insertAcc
    else if lineIsImportLike line then insertLoop rest (idx + 1) (idx + 1)
    else idx

def computeInsertAt (lines : List String) : Nat :=
  insertLoop lines 0 0

/-- The new entrypoint text built by `inject_bootstrap` when the guard did
not fire (tool.py:298-313): split into lines, insert the block and an
empty line at the insertion point, rejoin with `"\n".join`. -/
def injectedText (text packageName : String) : String :=
  let lines := (pySplitlines text.data).map fun l => String.mk l
  let k := computeInsertAt lines
  pyJoinNL (lines.take k ++ [injectionBlock packageName, ""] ++ lines.drop k)

/-- The pure text transformation performed by `inject_bootstrap`
(tool.py:281-313): return the text unchanged when it already contains the
bootstrap symbol, otherwise insert the block. -/
def inject_bootstrap (text packageName : String) : String :=
  if strHasSub text bootstrapMarker then text
  else injectedText text packageName

/-- Insertion point as described by the specification: the index of the
first line that is neither skippable (blank / comment / leading-quote
string line) nor an import-style statement; end-of-file when every line
qualifies.  (`List.findIdx` returns the length when no line matches.) -/
def specInsertionPoint (lines : List String) : Nat :=
  lines.findIdx fun l => !(lineIsSkippable l) && !(lineIsImportLike l)

/-- The value of `SERVER_MODULE_TEMPLATE` (tool.py:29-180), as one string
literal so that it is an atomic value.  The Python triple-quoted literal
processes escape sequences, so the backslash-n sequence inside it is a real
newline in the value (it splits the `return` line of the generated
`_normalise_prompt` in two); the leading backslash after the opening
quotes is a line continuation, and the value ends with a newline before
the closing quotes.  Braces appear exactly as in the source - they are NOT
doubled there, which is what makes `str.format` fail on this template -
and are written with \x escapes here, as are the double quotes. -/
def SERVER_MODULE_TEMPLATE : String :=
  "\"\"\"A tiny HTTP server that speaks a subset of the OpenAI API using OLAMA.\"\"\"\nimport json\nimport os\nimport socket\nimport subprocess\nimport threading\nimport uuid\nfrom http.server import BaseHTTPRequestHandler, ThreadingHTTPServer\nfrom typing import Any, Dict, Tuple\n\nHOST = os.environ.get(\"CODEX_LOCAL_SERVER_HOST\", \"\x7bhost\x7d\")\nPORT = int(os.environ.get(\"CODEX_LOCAL_SERVER_PORT\", \"\x7bport\x7d\"))\nDEFAULT_MODEL = os.environ.get(\"CODEX_LOCAL_MODEL\", \"\x7bmodel\x7d\")\nOLAMA_BIN = os.environ.get(\"OLAMA_BIN\", \"olama\")\n_API_BASE = f\"http://\x7bhost\x7d:\x7bport\x7d/v1\"\n_SERVER_THREAD: threading.Thread | None = None\n_SERVER: ThreadingHTTPServer | None = None\n\n\ndef _normalise_prompt(messages: Any, prompt: str | None) -> Tuple[str, str]:\n    if prompt:\n        return prompt, \"completion\"\n    if not isinstance(messages, list):\n        raise ValueError(\"messages must be a list of chat messages\")\n    rendered = []\n    for item in messages:\n        role = item.get(\"role\", \"user\")\n        content = item.get(\"content\", \"\")\n        rendered.append(f\"[\x7brole.upper()\x7d] \x7bcontent\x7d\")\n    rendered.append(\"[ASSISTANT]\")\n    return \"\n\".join(rendered), \"chat\"\n\n\ndef _run_olama(prompt: str, model: str) -> str:\n    cmd = [OLAMA_BIN, \"run\", model, \"--prompt\", prompt]\n    proc = subprocess.run(\n        cmd,\n        check=False,\n        capture_output=True,\n        text=True,\n    )\n    if proc.returncode != 0:\n        raise RuntimeError(\n            \"OLAMA command failed\", cmd, proc.returncode, proc.stderr.strip()\n        )\n    return proc.stdout.strip()\n\n\nclass _RequestHandler(BaseHTTPRequestHandler):\n    server_version = \"CodexLocalModel/0.1\"\n\n    def _set_headers(self) -> None:\n        self.send_response(200)\n        self.send_header(\"Content-Type\", \"application/json\")\n        self.end_headers()\n\n    def _send_error(self, message: str, status: int = 500) -> None:\n        self.send_response(status)\n        self.send_header(\"Content-Type\", \"application/json\")\n        self.end_headers()\n        payload = \x7b\"error\": \x7b\"message\": message, \"type\": \"olama_error\"\x7d\x7d\n        self.wfile.write(json.dumps(payload).encode(\"utf-8\"))\n\n    def _read_json(self) -> Dict[str, Any]:\n        length = int(self.headers.get(\"Content-Length\", \"0\"))\n        body = self.rfile.read(length).decode(\"utf-8\")\n        return json.loads(body or \"\x7b\x7d\")\n\n    def do_POST(self) -> None:  # noqa: N802 (http method name)\n        try:\n            payload = self._read_json()\n            model = payload.get(\"model\") or DEFAULT_MODEL\n            prompt, mode = _normalise_prompt(\n                payload.get(\"messages\"), payload.get(\"prompt\")\n            )\n            completion = _run_olama(prompt, model)\n            response_id = f\"local-codex-\x7buuid.uuid4()\x7d\"\n            if mode == \"chat\":\n                body = \x7b\n                    \"id\": response_id,\n                    \"object\": \"chat.completion\",\n                    \"model\": model,\n                    \"choices\": [\n                        \x7b\n                            \"index\": 0,\n                            \"finish_reason\": \"stop\",\n                            \"message\": \x7b\n                                \"role\": \"assistant\",\n                                \"content\": completion,\n                            \x7d,\n                        \x7d\n                    ],\n                \x7d\n            else:\n                body = \x7b\n                    \"id\": response_id,\n                    \"object\": \"text_completion\",\n                    \"model\": model,\n                    \"choices\": [\n                        \x7b\n                            \"index\": 0,\n                            \"finish_reason\": \"stop\",\n                            \"text\": completion,\n                        \x7d\n                    ],\n                \x7d\n            self._set_headers()\n            self.wfile.write(json.dumps(body).encode(\"utf-8\"))\n        except Exception as exc:  # pragma: no cover - defensive\n            self._send_error(str(exc))\n\n    def log_message(self, format: str, *args: object) -> None:  # noqa: A003\n        if os.environ.get(\"CODEX_LOCAL_SERVER_LOG\", \"0\") not in \x7b\"1\", \"true\", \"True\"\x7d:\n            return\n        super().log_message(format, *args)\n\n\ndef _start_server() -> None:\n    global _SERVER_THREAD, _SERVER\n    if _SERVER_THREAD and _SERVER_THREAD.is_alive():\n        return\n    with socket.socket(socket.AF_INET, socket.SOCK_STREAM) as sock:\n        try:\n            sock.bind((HOST, PORT))\n        except OSError as exc:\n            raise RuntimeError(\n                f\"Port \x7bPORT\x7d on \x7bHOST\x7d is already in use; \"\n                \"set CODEX_LOCAL_SERVER_PORT to override\"\n            ) from exc\n    server = ThreadingHTTPServer((HOST, PORT), _RequestHandler)\n    _SERVER = server\n\n    def _serve() -> None:\n        with server:\n            server.serve_forever()\n\n    thread = threading.Thread(target=_serve, daemon=True)\n    thread.start()\n    _SERVER_THREAD = thread\n\n\ndef ensure_local_model_server() -> Dict[str, str]:\n    \"\"\"Ensure the OLAMA-backed bridge server is running.\"\"\"\n    _start_server()\n    os.environ.setdefault(\"OPENAI_API_BASE\", _API_BASE)\n    os.environ.setdefault(\"OPENAI_API_KEY\", \"olama-local\")\n    return \x7b\"host\": HOST, \"port\": str(PORT), \"base_url\": _API_BASE\x7d\n\n\n__all__ = [\"ensure_local_model_server\"]\n"

/-! ### Python `str.format` (the subset this template exercises)

CPython scans the format string left to right and resolves each
replacement field as it is met; the first field whose argument name is not
among the keyword arguments raises `KeyError` at that point.  Conversions
(`!r`), format specs (`:>10`) and attribute/index access on a *known*
argument are not modelled (the template errors on an unknown argument
before any such field is reached); a field using them on a known argument
is reported as an error so that the model never silently diverges. -/

/-- Split at the first closing brace: `some (field, rest)` when one exists. -/
def splitAtCloseBrace : List Char → Option (List Char × List Char)
  | [] => none
  | c :: rest =>
    if c = '\x7d' then some ([], rest)
    else
      match splitAtCloseBrace rest with
      | none => none
      | some (f, r) => some (c :: f, r)

def pyFormatGo (args : List (String × String)) :
    Nat → List Char → List Char → Except String (List Char)
  | 0, _, _ => .error "formatter out of fuel"
  | _ + 1, acc, [] => .ok acc.reverse
  | fuel + 1, acc, c :: rest =>
    if c = '\x7b' then
      match rest with
      | '\x7b' :: rest2 => pyFormatGo args fuel ('\x7b' :: acc) rest2
      | _ =>
        match splitAtCloseBrace rest with
        | none => .error "Single opening brace encountered in format string"
        | some (field, rest2) =>
          let argName := field.takeWhile fun d => !(d = '.' || d = '[' || d = ':' || d = '!')
          match args.find? (fun kv => kv.1 == String.mk argName) with
          | none => .error ("KeyError: " ++ String.mk argName)
          | some kv =>
            if field = argName then pyFormatGo args fuel (kv.2.data.reverse ++ acc) rest2
            else .error ("format field feature not modelled: " ++ String.mk field)
    else if c = '\x7d' then
      match rest with
      | '\x7d' :: rest2 => pyFormatGo args fuel ('\x7d' :: acc) rest2
      | _ => .error "Single closing brace encountered in format string"
    else pyFormatGo args fuel (c :: acc) rest

/-- Python `s.format(**args)`; the fuel is ample since every step consumes
at least one character. -/
def pyFormat (s : String) (args : List (String × String)) : Except String String :=
  match pyFormatGo args (s.data.length + 1) [] s.data with
  | .error e => .error e
  | .ok l => .ok (String.mk l)

/-- `SERVER_MODULE_TEMPLATE.format(host=..., port=..., model=...)`
(tool.py:273-277); the integer port is rendered in decimal exactly as
Python renders it in a plain replacement field. -/
def renderServerModule (cfg : Config) : Except String String :=
  pyFormat SERVER_MODULE_TEMPLATE
    [("host", cfg.host), ("port", toString cfg.port), ("model", cfg.model)]

/-! ### The generated bridge server's request handling -/

/-- A chat message record as consumed by `_normalise_prompt`: a JSON
object whose "role" / "content" keys may be absent (then the `item.get`
defaults fire).  Values are strings, the shape the bridge is specified
for. -/
structure Msg where
  role : Option String := none
  content : Option String := none
deriving Repr, DecidableEq

/-- The JSON value found in the request's `messages` field: either a list
of message records, or anything else (absent, null, a string, a number…),
which `isinstance(messages, list)` rejects. -/
inductive MessagesVal where
  | pyList (msgs : List Msg)
  | notAList
deriving Repr, DecidableEq

/-- The `messages` branch of `_normalise_prompt` (tool.py:52-60). -/
def normaliseMessages (messages : MessagesVal) : Except String (String × String) :=
  match messages with
  | .notAList => .error "messages must be a list of chat messages"
  | .pyList msgs =>
    let rendered := msgs.map fun item =>
      "[" ++ (item.role.getD "user").toUpper ++ "] " ++ item.content.getD ""
    .ok (pyJoinNL (rendered ++ ["[ASSISTANT]"]), "chat")

/-- `_normalise_prompt` (tool.py:49-60).  The error is the raised
`ValueError`'s message.  `if prompt:` is Python truthiness: both `None`
and the empty string fall through to the messages branch. -/
def _normalise_prompt (messages : MessagesVal) (prompt : Option String) :
    Except String (String × String) :=
  match prompt with
  | some p => if p = "" then normaliseMessages messages else .ok (p, "completion")
  | none => normaliseMessages messages

/-- A structured request payload: the result of `_read_json` on the POST
body.  Only the fields `do_POST` reads are modelled; a body-level JSON
parse error takes the same `except` path as a `_normalise_prompt` error
and is not distinguished here. -/
structure Payload where
  model : Option String := none
  messages : MessagesVal := .notAList
  prompt : Option String := none

/-- A response body: either one of the two success shapes or the
`_send_error` envelope `{"error": {"message": …, "type": "olama_error"}}`
(the `err` constructor carries the message and the "type" tag). -/
inductive RespBody where
  | chat (id model content : String)
  | completion (id model text : String)
  | err (message ty : String)
deriving Repr, DecidableEq

structure Resp where
  status : Nat
  body : RespBody
deriving Repr, DecidableEq

/-- `do_POST` (tool.py:98-139).  `olama` abstracts `_run_olama` (success:
the stripped stdout; failure: the raised error's text), `responseId`
abstracts the fresh `uuid.uuid4()`.  Every error raised during handling is
caught by the handler's `try/except` and answered via `_send_error`, i.e.
HTTP 500 with the error envelope.  `payload.get("model") or DEFAULT_MODEL`
is Python truthiness again: a missing or empty model falls back to the
default. -/
def do_POST (defaultModel responseId : String)
    (olama : String → String → Except String String) (payload : Payload) : Resp :=
  let model := match payload.model with
    | some m => if m = "" then defaultModel else m
    | none => defaultModel
  match _normalise_prompt payload.messages payload.prompt with
  | .error e => ⟨500, .err e "olama_error"⟩
  | .ok (prompt, mode) =>
    match olama prompt model with
    | .error e => ⟨500, .err e "olama_error"⟩
    | .ok completion =>
      if mode = "chat" then ⟨200, .chat ("local-codex-" ++ responseId) model completion⟩
      else ⟨200, .completion ("local-codex-" ++ responseId) model completion⟩

/-! ### The installation locator -/

/-- Error message raised for a missing explicit path (tool.py:198). -/
def providedPathMsg (root : String) : String :=
  "Provided Codex path does not exist: " ++ root

/-- Final locator error message (tool.py:212-215).  Note that it advises
the flag and the environment variable but does not list the locations that
were tried. -/
def unableToLocateMsg : String :=
  "Unable to locate Codex installation. Provide --codex-path explicitly or set CODEX_INSTALL_DIR."

/-- `locate_codex` (tool.py:193-215).  `codexRoot` is the dataclass's
`codex_root` (`none` = Python `None`), `envDir` the value of
`CODEX_INSTALL_DIR` (`none` = unset), and `ex` the filesystem's
`Path.exists` predicate; `expanduser`/`resolve` normalisation is folded
into the path names.  `if env_dir:` makes an empty environment value fall
through to the defaults, and an existence test failure on the *explicit*
path raises immediately instead of falling through. -/
def locate_codex (codexRoot envDir : Option String) (ex : String → Bool) :
    Except String String :=
  match codexRoot with
  | some root => if ex root then .ok root else .error (providedPathMsg root)
  | none =>
    let fromDefaults : Except String String :=
      match DEFAULT_INSTALL_LOCATIONS.find? ex with
      | some p => .ok p
      | none => .error unableToLocateMsg
    match envDir with
    | some e =>
      if e ≠ "" then
        if ex e then .ok e else fromDefaults
      else fromDefaults
    | none => fromDefaults

/-- The locator contract as amended: an explicit path is authoritative
(returned when it exists, a NotFound error naming it otherwise, with no
fallback); without one, the first existing candidate among the non-empty
environment value followed by the default locations is returned; when none
exists the NotFound error advises `--codex-path` and `CODEX_INSTALL_DIR`
without listing the tried locations.  Existence is plain `Path.exists`,
not a directory test. -/
def locateSpec (codexRoot envDir : Option String) (ex : String → Bool) :
    Except String String :=
  match codexRoot with
  | some root => if ex root then .ok root else .error (providedPathMsg root)
  | none =>
    let candidates :=
      (match envDir with
        | some e => if e = "" then [] else [e]
        | none => []) ++ DEFAULT_INSTALL_LOCATIONS
    match candidates.find? ex with
    | some p => .ok p
    | none => .error unableToLocateMsg

/-! ### The filesystem model and the patch-engine operations -/

/-- The filesystem: an association list from paths to file contents.
`fsSet` prepends and `fsLookup` takes the most recent entry. -/
abbrev FS := List (String × String)

def fsLookup (fs : FS) (p : String) : Option String :=
  (fs.find? fun e => e.1 == p).map fun e => e.2

def fsSet (fs : FS) (p v : String) : FS := (p, v) :: fs

/-- The result of one integrator step: the filesystem afterwards, the
lines printed, and the raised exception's message when any. -/
structure StepOut where
  fs : FS
  out : List String
  err : Option String
deriving Repr, DecidableEq

/-- `_write_file` (tool.py:260-265): in dry-run print the intent and write
nothing, otherwise write (the `mkdir` of parent directories has no
observable effect in this model). -/
def _write_file (cfg : Config) (fs : FS) (path content : String) :
    FS × List String :=
  if cfg.dry_run then (fs, ["[dry-run] Would write " ++ path])
  else (fsSet fs path content, [])

/-- `package_dir / "local_model_server.py"`. -/
def serverPathOf (packageDir : String) : String :=
  packageDir ++ "/local_model_server.py"

/-- `install_server_module` (tool.py:267-279).
`path.with_suffix(path.suffix + backup_suffix)` appends the backup suffix
to the file name.  The `shutil.copy2` backup happens *before* the template
rendering, so a rendering error still leaves the backup behind. -/
def install_server_module (cfg : Config) (packageDir : String) (fs : FS) : StepOut :=
  let serverPath := serverPathOf packageDir
  let backup := serverPath ++ cfg.backup_suffix
  let fs1 :=
    match fsLookup fs serverPath, cfg.dry_run with
    | some content, false =>
      if (fsLookup fs backup).isSome then fs else fsSet fs backup content
    | _, _ => fs
  match renderServerModule cfg with
  | .error e => ⟨fs1, [], some e⟩
  | .ok moduleText =>
    let (fs2, out) := _write_file cfg fs1 serverPath moduleText
    ⟨fs2, out, none⟩

/-- `inject_bootstrap` as a filesystem operation (tool.py:281-322): read
the entrypoint (raising when it is absent), return unchanged when the
bootstrap symbol is already present, otherwise build the new text; in
dry-run print the intent, else back up the entrypoint (only when no backup
exists yet) and overwrite it. -/
def inject_bootstrap_op (cfg : Config) (entrypoint packageName : String) (fs : FS) : StepOut :=
  match fsLookup fs entrypoint with
  | none => ⟨fs, [], some ("No such file or directory: " ++ entrypoint)⟩
  | some text =>
    if strHasSub text bootstrapMarker then ⟨fs, [], none⟩
    else
      let newText := injectedText text packageName
      if cfg.dry_run then ⟨fs, ["[dry-run] Would update " ++ entrypoint], none⟩
      else
        let backup := entrypoint ++ cfg.backup_suffix
        let fs1 := if (fsLookup fs backup).isSome then fs else fsSet fs backup text
        ⟨fsSet fs1 entrypoint newText, [], none⟩

/-- The manifest text (tool.py:324-336): `json.dumps(info, indent=2,
sort_keys=True) + "\n"`, keys in sorted order; values are assumed free of
characters JSON would escape, as they are in practice. -/
def manifestContent (cfg : Config) (serverRel : String) : String :=
  "\x7b\n  \"host\": \"" ++ cfg.host ++
  "\",\n  \"message\": \"Codex has been patched to use a local OLAMA model.\",\n  \"model\": \"" ++
  cfg.model ++ "\",\n  \"port\": " ++ toString cfg.port ++
  ",\n  \"server_module\": \"" ++ serverRel ++ "\"\n\x7d\n"

/-- `create_integration_manifest` (tool.py:324-336);
`str(server_path.relative_to(root))` drops the root plus the separator. -/
def create_integration_manifest (cfg : Config) (root serverPath : String) (fs : FS) : StepOut :=
  let manifestPath := root ++ "/codex_local_model_integration.json"
  let serverRel := serverPath.drop (root.length + 1)
  let (fs2, out) := _write_file cfg fs manifestPath (manifestContent cfg serverRel)
  ⟨fs2, out, none⟩

/-- The write phase of `run` (tool.py:338-346), after discovery has
resolved `root`, `packageDir`, `entrypoint` and `packageName`
(`locate_codex` and the two resolvers are read-only).  A raised exception
aborts the remaining steps but keeps the writes already performed. -/
def runFilesOp (cfg : Config) (root packageDir entrypoint packageName : String) (fs : FS) : StepOut :=
  let r1 := install_server_module cfg packageDir fs
  match r1.err with
  | some e => ⟨r1.fs, r1.out, some e⟩
  | none =>
    let r2 := inject_bootstrap_op cfg entrypoint packageName r1.fs
    match r2.err with
    | some e => ⟨r2.fs, r1.out ++ r2.out, some e⟩
    | none =>
      let r3 := create_integration_manifest cfg root (serverPathOf packageDir) r2.fs
      ⟨r3.fs, r1.out ++ r2.out ++ r3.out, r3.err⟩

/-- `n` successive reruns of `install_server_module` on the same package
directory; the filesystem persists across runs, aborted or not. -/
def iterInstall (cfg : Config) (packageDir : String) : Nat → FS → FS
  | 0, fs => fs
  | n + 1, fs => iterInstall cfg packageDir n (install_server_module cfg packageDir fs).fs

/-- `n` successive reruns of `inject_bootstrap` on the same entrypoint. -/
def iterInject (cfg : Config) (entrypoint packageName : String) : Nat → FS → FS
  | 0, fs => fs
  | n + 1, fs =>
    iterInject cfg entrypoint packageName n (inject_bootstrap_op cfg entrypoint packageName fs).fs

/-! ### Helper lemmas: substring search -/

theorem listStarts_append (n h t : List Char) (hs : listStarts n h = true) :
    listStarts n (h ++ t) = true := by
  induction n generalizing h with
  | nil => simp [listStarts]
  | cons a as ih =>
    cases h with
    | nil => simp [listStarts] at hs
    | cons b bs =>
      simp only [listStarts, Bool.and_eq_true, beq_iff_eq] at hs
      simp only [List.cons_append, listStarts, Bool.and_eq_true, beq_iff_eq]
      exact ⟨hs.1, ih bs hs.2⟩

theorem listStarts_self_append (n t : List Char) : listStarts n (n ++ t) = true := by
  induction n with
  | nil => simp [listStarts]
  | cons a as ih => simpa [listStarts] using ih

theorem listHasSub_nil_needle (l : List Char) : listHasSub [] l = true := by
  cases l <;> simp [listHasSub, listStarts]

theorem listHasSub_of_starts (n h : List Char) (hs : listStarts n h = true) :
    listHasSub n h = true := by
  cases h with
  | nil =>
    cases n with
    | nil => simp [listHasSub]
    | cons a as => simp [listStarts] at hs
  | cons c t => simp [listHasSub, hs]

theorem listHasSub_append_left (n h t : List Char) (hs : listHasSub n t = true) :
    listHasSub n (h ++ t) = true := by
  induction h with
  | nil => simpa using hs
  | cons c cs ih => simp [listHasSub, ih]

theorem listHasSub_append_right (n h t : List Char) (hs : listHasSub n h = true) :
    listHasSub n (h ++ t) = true := by
  induction h with
  | nil =>
    have hn : n = [] := by
      cases n with
      | nil => rfl
      | cons a as => simp [listHasSub] at hs
    subst hn
    simpa using listHasSub_nil_needle t
  | cons c cs ih =>
    simp only [listHasSub, Bool.or_eq_true] at hs
    rcases hs with h1 | h2
    · simp only [List.cons_append, listHasSub, Bool.or_eq_true]
      exact Or.inl (listStarts_append n (c :: cs) t h1)
    · simp only [List.cons_append, listHasSub, Bool.or_eq_true]
      exact Or.inr (ih h2)

theorem string_data_append (s t : String) : (s ++ t).data = s.data ++ t.data := rfl

/-- If the needle occurs in an element of the list, it occurs in the
`"\n"`-joined string. -/
theorem strHasSub_pyJoinNL (L : List String) (x m : String) (hx : x ∈ L)
    (hm : strHasSub x m = true) : strHasSub (pyJoinNL L) m = true := by
  induction L with
  | nil => cases hx
  | cons a rest ih =>
    cases rest with
    | nil =>
      have hxa : x = a := by simpa using hx
      subst hxa
      simpa [pyJoinNL] using hm
    | cons b r =>
      rcases List.mem_cons.mp hx with h1 | h2
      · subst h1
        unfold strHasSub at hm ⊢
        show listHasSub m.data ((x ++ "\n") ++ pyJoinNL (b :: r)).data = true
        rw [string_data_append, string_data_append]
        exact listHasSub_append_right _ _ _ (listHasSub_append_right _ _ _ hm)
      · have hsub := ih h2
        unfold strHasSub at hsub ⊢
        show listHasSub m.data ((a ++ "\n") ++ pyJoinNL (b :: r)).data = true
        rw [string_data_append]
        exact listHasSub_append_left _ _ _ hsub

/-- The bootstrap symbol occurs in the fixed part of the injected block
that precedes the package-name hole. -/
theorem marker_in_injectionPre :
    listHasSub bootstrapMarker.data injectionPre.data = true := by decide

theorem marker_in_injectionBlock (pkg : String) :
    strHasSub (injectionBlock pkg) bootstrapMarker = true := by
  unfold strHasSub injectionBlock
  rw [string_data_append, string_data_append]
  exact listHasSub_append_right _ _ _
    (listHasSub_append_right _ _ _ marker_in_injectionPre)

/-- The freshly injected entrypoint text contains the bootstrap symbol:
the injected block is one of the joined lines. -/
theorem marker_in_injectedText (text pkg : String) :
    strHasSub (injectedText text pkg) bootstrapMarker = true := by
  unfold injectedText
  apply strHasSub_pyJoinNL _ (injectionBlock pkg) _ _ (marker_in_injectionBlock pkg)
  apply List.mem_append.mpr
  exact Or.inl (List.mem_append.mpr (Or.inr (List.mem_cons_self _ _)))

/-! ### Helper lemmas: the filesystem model -/

theorem fsLookup_fsSet_self (fs : FS) (p v : String) :
    fsLookup (fsSet fs p v) p = some v := by
  unfold fsLookup fsSet
  rw [List.find?_cons_of_pos _ (by simp)]
  rfl

theorem fsLookup_fsSet_ne (fs : FS) (p q v : String) (h : p ≠ q) :
    fsLookup (fsSet fs p v) q = fsLookup fs q := by
  unfold fsLookup fsSet
  rw [List.find?_cons_of_neg _ (by simp [h])]

theorem append_ne_self_of_ne_empty (s t : String) (ht : t.length ≠ 0) : s ++ t ≠ s := by
  intro h
  have hl := congrArg String.length h
  rw [String.length_append] at hl
  omega

/-! ### Helper lemmas: insertion point -/

/-- The loop of tool.py:299-310 computes the index of the first line that
is neither skippable nor import-like (the `insert_at = index + 1`
assignments of the import branch are dead: both loop exits overwrite
`insert_at`). -/
theorem insertLoop_eq (lines : List String) (idx acc : Nat) :
    insertLoop lines idx acc = idx + specInsertionPoint lines := by
  induction lines generalizing idx acc with
  | nil => simp [insertLoop, specInsertionPoint, List.findIdx, List.findIdx.go]
  | cons l rest ih =>
    by_cases hs : lineIsSkippable l
    · have hp : specInsertionPoint (l :: rest) = specInsertionPoint rest + 1 := by
        simp [specInsertionPoint, List.findIdx_cons, hs]
      rw [insertLoop, if_pos hs, ih, hp]
      omega
    · by_cases hi : lineIsImportLike l
      · have hp : specInsertionPoint (l :: rest) = specInsertionPoint rest + 1 := by
          simp [specInsertionPoint, List.findIdx_cons, hs, hi]
        rw [insertLoop, if_neg hs, if_pos hi, ih, hp]
        omega
      · have hp : specInsertionPoint (l :: rest) = 0 := by
          simp [specInsertionPoint, List.findIdx_cons, hs, hi]
        rw [insertLoop, if_neg hs, if_neg hi, hp]
        omega

/-! ### Helper lemmas: `"\n".join` agrees with `String.intercalate` -/

theorem pyJoinNL_shift (as : List String) (acc a : String) :
    pyJoinNL ((acc ++ "\n" ++ a) :: as) = acc ++ "\n" ++ pyJoinNL (a :: as) := by
  cases as with
  | nil => simp [pyJoinNL]
  | cons b bs => simp [pyJoinNL, String.append_assoc]

theorem intercalate_go_eq_pyJoinNL (L : List String) (acc : String) :
    String.intercalate.go acc "\n" L = pyJoinNL (acc :: L) := by
  induction L generalizing acc with
  | nil => simp [String.intercalate.go, pyJoinNL]
  | cons a as ih =>
    rw [String.intercalate.go, ih, pyJoinNL_shift]
    conv_rhs => rw [pyJoinNL]

theorem pyJoinNL_eq_intercalate (L : List String) :
    pyJoinNL L = String.intercalate "\n" L := by
  cases L with
  | nil => rfl
  | cons a as => rw [String.intercalate, intercalate_go_eq_pyJoinNL]

/-! ### Helper lemmas: branch characterisations of the operations -/

theorem inject_op_read_fail (cfg : Config) (ep pkg : String) (fs : FS)
    (h : fsLookup fs ep = none) :
    inject_bootstrap_op cfg ep pkg fs =
      ⟨fs, [], some ("No such file or directory: " ++ ep)⟩ := by
  unfold inject_bootstrap_op
  rw [h]

theorem inject_op_noop_of_marker (cfg : Config) (ep pkg : String) (fs : FS) (text : String)
    (h : fsLookup fs ep = some text) (hm : strHasSub text bootstrapMarker = true) :
    inject_bootstrap_op cfg ep pkg fs = ⟨fs, [], none⟩ := by
  unfold inject_bootstrap_op
  rw [h]
  simp [hm]

theorem inject_op_dry (cfg : Config) (ep pkg : String) (fs : FS) (text : String)
    (h : fsLookup fs ep = some text) (hm : strHasSub text bootstrapMarker = false)
    (hd : cfg.dry_run = true) :
    inject_bootstrap_op cfg ep pkg fs =
      ⟨fs, ["[dry-run] Would update " ++ ep], none⟩ := by
  unfold inject_bootstrap_op
  rw [h]
  simp [hm, hd]

theorem inject_op_write (cfg : Config) (ep pkg : String) (fs : FS) (text : String)
    (h : fsLookup fs ep = some text) (hm : strHasSub text bootstrapMarker = false)
    (hd : cfg.dry_run = false) :
    inject_bootstrap_op cfg ep pkg fs =
      ⟨fsSet
        (if (fsLookup fs (ep ++ cfg.backup_suffix)).isSome then fs
         else fsSet fs (ep ++ cfg.backup_suffix) text)
        ep (injectedText text pkg), [], none⟩ := by
  unfold inject_bootstrap_op
  rw [h]
  simp [hm, hd]

theorem install_op_dry (cfg : Config) (pd : String) (fs : FS) (e : String)
    (hr : renderServerModule cfg = .error e) (hd : cfg.dry_run = true) :
    install_server_module cfg pd fs = ⟨fs, [], some e⟩ := by
  unfold install_server_module
  rw [hr]
  cases hl : fsLookup fs (serverPathOf pd) <;> simp [hd]

theorem install_op_err_no_target (cfg : Config) (pd : String) (fs : FS) (e : String)
    (hr : renderServerModule cfg = .error e)
    (hl : fsLookup fs (serverPathOf pd) = none) :
    install_server_module cfg pd fs = ⟨fs, [], some e⟩ := by
  unfold install_server_module
  rw [hr]
  simp [hl]

theorem install_op_err_backup_exists (cfg : Config) (pd : String) (fs : FS)
    (e content : String)
    (hr : renderServerModule cfg = .error e) (hd : cfg.dry_run = false)
    (hl : fsLookup fs (serverPathOf pd) = some content)
    (hb : (fsLookup fs (serverPathOf pd ++ cfg.backup_suffix)).isSome = true) :
    install_server_module cfg pd fs = ⟨fs, [], some e⟩ := by
  unfold install_server_module
  rw [hr]
  simp [hl, hd, hb]

theorem install_op_err_backup (cfg : Config) (pd : String) (fs : FS) (e content : String)
    (hr : renderServerModule cfg = .error e) (hd : cfg.dry_run = false)
    (hl : fsLookup fs (serverPathOf pd) = some content)
    (hb : fsLookup fs (serverPathOf pd ++ cfg.backup_suffix) = none) :
    install_server_module cfg pd fs =
      ⟨fsSet fs (serverPathOf pd ++ cfg.backup_suffix) content, [], some e⟩ := by
  unfold install_server_module
  rw [hr]
  simp [hl, hd, hb]

/-- The default-configuration rendering, shown once: `str.format` on the
template stops at the `\x7brole.upper()\x7d` field of the generated
`_normalise_prompt` (an f-string at the generated module's level, but a
plain replacement field to the integrator's `.format` call) and raises
`KeyError` for the unknown argument `role`. -/
theorem render_default_err :
    pyFormat SERVER_MODULE_TEMPLATE
      [("host", "127.0.0.1"), ("port", "3925"), ("model", "llama3")] =
      .error "KeyError: role" := by decide!

theorem renderServerModule_default_err (cfg : Config)
    (hh : cfg.host = "127.0.0.1") (hp : cfg.port = 3925) (hm : cfg.model = "llama3") :
    renderServerModule cfg = .error "KeyError: role" := by
  unfold renderServerModule
  rw [hh, hp, hm]
  exact render_default_err

/-- The second failing-config rendering used by the C3 refutation. -/
theorem render_port4000_err :
    renderServerModule { host := "127.0.0.1", port := 4000, model := "llama3" } =
      .error "KeyError: role" := by decide!

/-- A rerun of `install_server_module` whose backup file already exists
changes nothing (the default configuration renders to an error before the
write is reached). -/
theorem install_noop_of_backup (pd : String) (fs : FS)
    (hb : (fsLookup fs (serverPathOf pd ++ ".bak")).isSome = true) :
    (install_server_module {} pd fs).fs = fs := by
  cases hl : fsLookup fs (serverPathOf pd) with
  | none =>
    rw [install_op_err_no_target {} pd fs _ (renderServerModule_default_err {} rfl rfl rfl) hl]
  | some c =>
    rw [install_op_err_backup_exists {} pd fs _ c
      (renderServerModule_default_err {} rfl rfl rfl) rfl hl hb]

theorem iterInstall_noop (pd : String) (k : Nat) : ∀ fs : FS,
    (fsLookup fs (serverPathOf pd ++ ".bak")).isSome = true →
    iterInstall {} pd k fs = fs := by
  induction k with
  | zero => intro fs _; rfl
  | succ k ih =>
    intro fs hb
    show iterInstall {} pd k (install_server_module {} pd fs).fs = fs
    rw [install_noop_of_backup pd fs hb]
    exact ih fs hb

theorem iterInject_noop (ep pkg : String) (k : Nat) : ∀ (fs : FS) (text : String),
    fsLookup fs ep = some text → strHasSub text bootstrapMarker = true →
    iterInject {} ep pkg k fs = fs := by
  induction k with
  | zero => intro fs _ _ _; rfl
  | succ k ih =>
    intro fs text h hm
    show iterInject {} ep pkg k (inject_bootstrap_op {} ep pkg fs).fs = fs
    rw [congrArg StepOut.fs (inject_op_noop_of_marker {} ep pkg fs text h hm)]
    exact ih fs text h hm

/-! ## The claims -/

/-- C1: running the integrator's entrypoint patch twice against the same
installation with the same configuration yields a byte-identical
entrypoint file after the second run as after the first: the second
`inject_bootstrap` call detects the already-injected bootstrap (its symbol
is a substring of the rewritten text) and leaves the file unchanged, so no
duplicate injected block is ever added. -/
theorem claim_C1 (cfg : Config) (entrypoint packageName : String) (fs : FS) :
    (inject_bootstrap_op cfg entrypoint packageName
        ((inject_bootstrap_op cfg entrypoint packageName fs).fs)).fs =
      (inject_bootstrap_op cfg entrypoint packageName fs).fs := by
  cases h : fsLookup fs entrypoint with
  | none =>
    have h1 := inject_op_read_fail cfg entrypoint packageName fs h
    rw [h1]
    exact congrArg StepOut.fs h1
  | some text =>
    cases hm : strHasSub text bootstrapMarker with
    | true =>
      have h1 := inject_op_noop_of_marker cfg entrypoint packageName fs text h hm
      rw [h1]
      exact congrArg StepOut.fs h1
    | false =>
      cases hd : cfg.dry_run with
      | true =>
        have h1 := inject_op_dry cfg entrypoint packageName fs text h hm hd
        rw [h1]
        exact congrArg StepOut.fs h1
      | false =>
        have h1 := inject_op_write cfg entrypoint packageName fs text h hm hd
        rw [h1]
        exact congrArg StepOut.fs
          (inject_op_noop_of_marker cfg entrypoint packageName _ _
            (fsLookup_fsSet_self _ _ _) (marker_in_injectedText text packageName))

/-- C2: refuted by the code (code bug).  `install_server_module` never
overwrites the target with freshly rendered bridge content, because
`SERVER_MODULE_TEMPLATE.format(...)` raises `KeyError: 'role'` - the
template's literal braces are not escaped - so on a non-dry run against an
installation with an existing module the operation creates the backup,
then aborts, leaving the old module bytes in place. -/
theorem claim_C2 :
    install_server_module {} "codex" [("codex/local_model_server.py", "ORIGINAL")] =
      ⟨[("codex/local_model_server.py.bak", "ORIGINAL"),
        ("codex/local_model_server.py", "ORIGINAL")], [], some "KeyError: role"⟩ := by
  decide!

/-- C3: refuted by the code (code bug).  Rendering with the specified
triple (host="127.0.0.1", port=3925, model="llama3") produces no bytes at
all - `str.format` raises `KeyError: 'role'` - and the same happens after
changing only the port, so there is no rendered content whose
reproducibility could be observed. -/
theorem claim_C3 :
    renderServerModule { host := "127.0.0.1", port := 3925, model := "llama3" } =
      .error "KeyError: role" ∧
    renderServerModule { host := "127.0.0.1", port := 4000, model := "llama3" } =
      .error "KeyError: role" :=
  ⟨renderServerModule_default_err _ rfl rfl rfl, render_port4000_err⟩

/-- C4: a backup file is never overwritten once created.  Both operations
copy the target to its backup path only when nothing exists there, so
after any number `n ≥ 1` of reruns against the same installation the
server-module backup holds the module's pre-first-run bytes, and the
entrypoint backup holds the entrypoint's pre-first-run bytes whenever a
modifying run happened (none does when the bootstrap symbol was already
present, and then no backup is created at all). -/
theorem claim_C4 (fs0 : FS) (pd ep pkg orig etext : String) (n : Nat) (hn : 1 ≤ n)
    (hsv : fsLookup fs0 (serverPathOf pd) = some orig)
    (hsb : fsLookup fs0 (serverPathOf pd ++ ".bak") = none)
    (hep : fsLookup fs0 ep = some etext)
    (heb : fsLookup fs0 (ep ++ ".bak") = none) :
    fsLookup (iterInstall {} pd n fs0) (serverPathOf pd ++ ".bak") = some orig ∧
    fsLookup (iterInject {} ep pkg n fs0) (ep ++ ".bak") =
      (if strHasSub etext bootstrapMarker then none else some etext) := by
  obtain ⟨m, rfl⟩ : ∃ m, n = m + 1 := ⟨n - 1, by omega⟩
  constructor
  · have h1 : (install_server_module {} pd fs0).fs =
        fsSet fs0 (serverPathOf pd ++ ".bak") orig :=
      congrArg StepOut.fs (install_op_err_backup {} pd fs0 _ orig
        (renderServerModule_default_err {} rfl rfl rfl) rfl hsv hsb)
    show fsLookup (iterInstall {} pd m (install_server_module {} pd fs0).fs)
        (serverPathOf pd ++ ".bak") = some orig
    rw [h1, iterInstall_noop pd m _ (by rw [fsLookup_fsSet_self]; rfl),
      fsLookup_fsSet_self]
  · cases hm : strHasSub etext bootstrapMarker with
    | true =>
      have h2 : (inject_bootstrap_op {} ep pkg fs0).fs = fs0 :=
        congrArg StepOut.fs (inject_op_noop_of_marker {} ep pkg fs0 etext hep hm)
      show fsLookup (iterInject {} ep pkg m (inject_bootstrap_op {} ep pkg fs0).fs)
          (ep ++ ".bak") = _
      rw [h2, iterInject_noop ep pkg m fs0 etext hep hm, heb]
      simp
    | false =>
      have hne : ep ≠ ep ++ ".bak" :=
        (append_ne_self_of_ne_empty ep ".bak" (by decide)).symm
      have h1 : (inject_bootstrap_op {} ep pkg fs0).fs =
          fsSet (fsSet fs0 (ep ++ ".bak") etext) ep (injectedText etext pkg) := by
        rw [congrArg StepOut.fs (inject_op_write {} ep pkg fs0 etext hep hm rfl)]
        show fsSet (if (fsLookup fs0 (ep ++ ".bak")).isSome then fs0
            else fsSet fs0 (ep ++ ".bak") etext) ep (injectedText etext pkg) = _
        rw [heb]
        rfl
      show fsLookup (iterInject {} ep pkg m (inject_bootstrap_op {} ep pkg fs0).fs)
          (ep ++ ".bak") = _
      rw [h1, iterInject_noop ep pkg m _ (injectedText etext pkg)
          (fsLookup_fsSet_self _ _ _) (marker_in_injectedText etext pkg),
        fsLookup_fsSet_ne _ _ _ _ hne, fsLookup_fsSet_self]
      simp

/-- C4 witness: a concrete two-rerun scenario. -/
theorem claim_C4_witness :
    fsLookup (iterInstall {} "pkg" 2
        [("pkg/local_model_server.py", "SRV"), ("pkg/cli.py", "import os\nx = 1\n")])
      (serverPathOf "pkg" ++ ".bak") = some "SRV" ∧
    fsLookup (iterInject {} "pkg/cli.py" "pkg" 2
        [("pkg/local_model_server.py", "SRV"), ("pkg/cli.py", "import os\nx = 1\n")])
      ("pkg/cli.py" ++ ".bak") =
      (if strHasSub "import os\nx = 1\n" bootstrapMarker then none
       else some "import os\nx = 1\n") :=
  claim_C4 [("pkg/local_model_server.py", "SRV"), ("pkg/cli.py", "import os\nx = 1\n")]
    "pkg" "pkg/cli.py" "pkg" "SRV" "import os\nx = 1\n" 2
    (by omega) (by decide) (by decide) (by decide) (by decide)

/-- C5 counterexample: with an explicit path that does not exist on disk
while a default candidate does exist, `locate_codex` does not return the
first existing path in the explicit > environment > defaults priority
order - it raises immediately, naming only the provided path. -/
theorem claim_C5_cex :
    locate_codex (some "/missing") none (fun p => p == "/opt/codex") =
      .error (providedPathMsg "/missing") ∧
    (fun p => p == "/opt/codex") "/opt/codex" = true ∧
    "/opt/codex" ∈ DEFAULT_INSTALL_LOCATIONS := by
  refine ⟨by decide!, by decide!, by decide!⟩

/-- C5 as amended: an explicit path is authoritative - it is returned when
it exists and otherwise a NotFound error naming it is raised with no
fallback; without an explicit path the first existing candidate among the
non-empty environment value followed by the default locations is returned;
when none exists, the NotFound error advises `--codex-path` and
`CODEX_INSTALL_DIR` without listing the tried locations.  Existence is a
plain `Path.exists` test, not a directory test. -/
theorem claim_C5 (codexRoot envDir : Option String) (ex : String → Bool) :
    locate_codex codexRoot envDir ex = locateSpec codexRoot envDir ex := by
  cases codexRoot with
  | some r => rfl
  | none =>
    cases envDir with
    | none => rfl
    | some e =>
      by_cases he : e = ""
      · subst he
        simp [locate_codex, locateSpec]
      · cases hex : ex e with
        | true => simp [locate_codex, locateSpec, he, hex]
        | false => simp [locate_codex, locateSpec, he, hex]

/-- C6: the insertion point is the index of the first line that is neither
skippable (blank, comment, or starting with a quote after stripping) nor
an import-style statement, and end-of-file when every line qualifies; in
particular, for an entrypoint of a module docstring, three imports and a
function definition, the injected block lands after the imports,
immediately before the function definition. -/
theorem claim_C6 :
    (∀ lines : List String, computeInsertAt lines = specInsertionPoint lines) ∧
    inject_bootstrap
        "\"\"\"Tool docstring.\"\"\"\nimport os\nimport sys\nimport json\ndef main():\n    return 0\n"
        "codex" =
      String.intercalate "\n"
        ["\"\"\"Tool docstring.\"\"\"", "import os", "import sys", "import json",
         injectionBlock "codex", "", "def main():", "    return 0"] := by
  constructor
  · intro lines
    simpa [computeInsertAt] using insertLoop_eq lines 0 0
  · decide!

/-- C7: `_normalise_prompt` returns a non-empty prompt verbatim with mode
"completion"; otherwise a messages list is rendered as one
`[ROLE-UPPERCASED] content` line per message, joined by newlines, followed
by a final `[ASSISTANT]` line, with mode "chat"; in particular a single
user message "hi" renders "[USER] hi\n[ASSISTANT]". -/
theorem claim_C7 :
    (∀ (p : String) (m : MessagesVal), p ≠ "" →
      _normalise_prompt m (some p) = .ok (p, "completion")) ∧
    (∀ pairs : List (String × String),
      _normalise_prompt
          (.pyList (pairs.map fun rc => { role := some rc.1, content := some rc.2 })) none =
        .ok (String.intercalate "\n"
          (pairs.map (fun rc => "[" ++ rc.1.toUpper ++ "] " ++ rc.2) ++ ["[ASSISTANT]"]),
          "chat")) ∧
    _normalise_prompt (.pyList [{ role := some "user", content := some "hi" }]) none =
      .ok ("[USER] hi\n[ASSISTANT]", "chat") := by
  refine ⟨?_, ?_, by decide!⟩
  · intro p m hp
    unfold _normalise_prompt
    simp [hp]
  · intro pairs
    show normaliseMessages (.pyList (pairs.map _)) = _
    simp only [normaliseMessages]
    rw [pyJoinNL_eq_intercalate]
    simp [List.map_map, Function.comp_def]

/-- C7 witness: a non-empty prompt "hi" is returned verbatim in
completion mode. -/
theorem claim_C7_witness :
    _normalise_prompt (.pyList []) (some "hi") = .ok ("hi", "completion") :=
  claim_C7.1 "hi" (.pyList []) (by decide)

/-- C8: a request whose `messages` field is present but not a sequence,
with no (or an empty) `prompt`, makes `_normalise_prompt` raise; the
handler catches every handling error and answers HTTP 500 with the JSON
error envelope carrying the message and the fixed tag "olama_error",
instead of crashing the listener. -/
theorem claim_C8 (defaultModel responseId : String)
    (olama : String → String → Except String String) (payload : Payload)
    (hp : payload.prompt = none ∨ payload.prompt = some "")
    (hm : payload.messages = .notAList) :
    do_POST defaultModel responseId olama payload =
      ⟨500, .err "messages must be a list of chat messages" "olama_error"⟩ := by
  unfold do_POST
  rcases hp with hp | hp <;> rw [hm, hp] <;> rfl

/-- C8 witness: the request body \x7b"messages": "not-a-list"\x7d. -/
theorem claim_C8_witness :
    do_POST "llama3" "id0" (fun _ _ => .ok "done") { messages := .notAList } =
      ⟨500, .err "messages must be a list of chat messages" "olama_error"⟩ :=
  claim_C8 "llama3" "id0" (fun _ _ => .ok "done") { messages := .notAList }
    (Or.inl rfl) rfl

/-- C9: refuted by the code (code bug).  With the dry-run flag set nothing
is ever written - the filesystem is returned unchanged by the run and by
each writer individually - but the run does not print the intended
actions either: it aborts with `KeyError: 'role'` while rendering the
bridge module, before any `[dry-run]` line is printed. -/
theorem claim_C9 (fs : FS) (root pd ep pkg : String) :
    (runFilesOp { dry_run := true } root pd ep pkg fs).fs = fs ∧
    (runFilesOp { dry_run := true } root pd ep pkg fs).out = ([] : List String) ∧
    (runFilesOp { dry_run := true } root pd ep pkg fs).err = some "KeyError: role" ∧
    (inject_bootstrap_op { dry_run := true } ep pkg fs).fs = fs ∧
    (create_integration_manifest { dry_run := true } root (serverPathOf pd) fs).fs = fs := by
  have hi := install_op_dry { dry_run := true } pd fs "KeyError: role"
    (renderServerModule_default_err _ rfl rfl rfl) rfl
  have hrun : runFilesOp { dry_run := true } root pd ep pkg fs =
      ⟨fs, [], some "KeyError: role"⟩ := by
    unfold runFilesOp
    rw [hi]
  refine ⟨by rw [hrun], by rw [hrun], by rw [hrun], ?_, rfl⟩
  cases h : fsLookup fs ep with
  | none => exact congrArg StepOut.fs (inject_op_read_fail _ _ _ _ h)
  | some text =>
    cases hmk : strHasSub text bootstrapMarker with
    | true => exact congrArg StepOut.fs (inject_op_noop_of_marker _ _ _ _ _ h hmk)
    | false => exact congrArg StepOut.fs (inject_op_dry _ _ _ _ _ h hmk rfl)

/-- C10: for every entrypoint text containing the substring
"ensure_local_model_server" anywhere - marker comments or not -
`inject_bootstrap` returns immediately: the file is unchanged, no backup
is created, nothing is printed and nothing raised, because the idempotency
guard tests for the bootstrap function's name as a substring, not for the
start/end marker comment pair. -/
theorem claim_C10 (cfg : Config) (entrypoint packageName text : String) (fs : FS)
    (h : fsLookup fs entrypoint = some text)
    (hm : strHasSub text bootstrapMarker = true) :
    inject_bootstrap_op cfg entrypoint packageName fs = ⟨fs, [], none⟩ :=
  inject_op_noop_of_marker cfg entrypoint packageName fs text h hm

/-- C10 witness: user-written code that mentions the bootstrap symbol with
no injected marker comments present. -/
theorem claim_C10_witness :
    inject_bootstrap_op {} "app/cli.py" "app"
        [("app/cli.py", "x = ensure_local_model_server\n")] =
      ⟨[("app/cli.py", "x = ensure_local_model_server\n")], [], none⟩ :=
  claim_C10 {} "app/cli.py" "app" "x = ensure_local_model_server\n"
    [("app/cli.py", "x = ensure_local_model_server\n")] (by rfl) (by decide)

end Mover
